import Mathlib

/-!
Verification of the BeeLandr weather/forage scoring engine, the plot
merge/filter pipeline and the key-value storage wrapper, as shallowly
embedded from `src/assets/js/services/WeatherService.js`,
`src/assets/js/main.js` and `src/assets/js/services/StorageManager.js`.
JavaScript numbers are modelled as rationals, `Math.round` as
round-half-up, stateful `localStorage` access as explicit state passing,
and network access as an explicit environment of oracle responses.
-/

namespace BeeLandr

/-- JavaScript `Math.round`: round half toward positive infinity. -/
def jsRound (x : ℚ) : ℤ := ⌊x + 1 / 2⌋

/-! ## WeatherService: data model -/

/-- The `pollen` block attached by `integratePollenData`. -/
structure PollenBlock where
  averages : List (String × ℚ)
  dominant : String
  totalScore : ℚ
  forageIndex : ℤ
deriving DecidableEq

/-- The weather snapshot produced by `processWeatherData` /
`getDefaultWeather`, optionally enriched with a pollen block. -/
structure Weather where
  temperature : ℚ
  minTemp : ℚ
  maxTemp : ℚ
  humidity : ℤ
  rainfall : ℚ
  windSpeed : ℚ
  condition : String
  beeScore : ℚ
  pollen : Option PollenBlock
deriving DecidableEq

/-! ## WeatherService: pure scoring functions -/

/-- `calculateAverage(arr)`: sum divided by length, 0 for an empty array. -/
def calculateAverage (arr : List ℚ) : ℚ :=
  if arr.isEmpty then 0 else arr.sum / arr.length

/-- `getWeatherCondition(temp, rainfall, windSpeed)` (rainfall and wind
speed are ignored by the source). -/
def getWeatherCondition (temp rainfall windSpeed : ℚ) : String :=
  if temp < 0 then "Cold"
  else if temp < 10 then "Cool"
  else if temp < 20 then "Mild"
  else if temp < 25 then "Warm"
  else "Hot"

/-- `calculateBeeScore(temp, humidity, rainfall, windSpeed, forageIndex)`.
The JavaScript default argument `forageIndex = 50` is applied explicitly
at call sites. -/
def calculateBeeScore (temp humidity rainfall windSpeed forageIndex : ℚ) : ℚ :=
  let score : ℚ := 100
  let score := if temp < 10 ∨ temp > 30 then score - 25
    else if temp < 15 ∨ temp > 25 then score - 15
    else if temp < 18 ∨ temp > 23 then score - 5
    else score
  let score := if humidity < 30 ∨ humidity > 80 then score - 15
    else if humidity < 40 ∨ humidity > 75 then score - 5
    else score
  let score := if windSpeed > 40 then score - 20
    else if windSpeed > 30 then score - 10
    else if windSpeed > 20 then score - 5
    else score
  let score := if rainfall < 300 then score - 10
    else if rainfall > 2000 then score - 10
    else score
  let score := score * (9 / 10) + forageIndex * (1 / 10)
  max 0 (min 100 score)

/-- The inner `optimalRange` helper of `calculateForageIndex`. -/
def optimalRange (value : ℚ) : ℤ :=
  if value < 50 then 0
  else if value < 500 then jsRound (value / 500 * 50)
  else if value < 2000 then 50 + jsRound ((value - 500) / 1500 * 30)
  else if value < 5000 then 80 + jsRound ((value - 2000) / 3000 * 15)
  else 100

/-- `calculateForageIndex(pollenAverages)`: the argument is the list of
per-species average values in object insertion order. -/
def calculateForageIndex (pollenAverages : List ℚ) : ℤ :=
  let contributing := pollenAverages.filter (fun v => decide (0 < v))
  let score : ℤ := 50 + (contributing.map optimalRange).sum
  let score : ℤ :=
    if 0 < contributing.length then
      jsRound ((score : ℚ) / (contributing.length + 1))
    else score
  min 100 (max 0 score)

/-! ## WeatherService: pollen integration -/

/-- The `hourly` object of the air-quality response; a missing series is
`none` (the source replaces it by `[]` via `|| []`). -/
structure PollenHourly where
  birch_pollen : Option (List ℚ)
  grass_pollen : Option (List ℚ)
  ragweed_pollen : Option (List ℚ)
  alder_pollen : Option (List ℚ)
  mugwort_pollen : Option (List ℚ)
  olive_pollen : Option (List ℚ)
deriving DecidableEq

/-- The `pollenTypes` object literal, in its fixed insertion order. -/
def pollenTypes (h : PollenHourly) : List (String × List ℚ) :=
  [("birch", h.birch_pollen.getD []),
   ("grass", h.grass_pollen.getD []),
   ("ragweed", h.ragweed_pollen.getD []),
   ("alder", h.alder_pollen.getD []),
   ("mugwort", h.mugwort_pollen.getD []),
   ("olive", h.olive_pollen.getD [])]

/-- The `pollenAverages` object: species with a non-empty hourly series,
mapped to the average of that series, in the fixed species order. -/
def pollenAveragesOf (h : PollenHourly) : List (String × ℚ) :=
  (pollenTypes h).filterMap (fun tv =>
    if tv.2.isEmpty then none else some (tv.1, calculateAverage tv.2))

/-- One step of the `reduce` computing the dominant pollen type:
`(a, b) => (b[1] > a[1] ? b : a)`. -/
def dominantStep (a b : String × ℚ) : String × ℚ := if a.2 < b.2 then b else a

/-- The dominant pollen type: `reduce` over the average entries with
initial accumulator `["none", 0]`. -/
def dominantOf (averages : List (String × ℚ)) : String :=
  (averages.foldl dominantStep ("none", 0)).1

/-- `integratePollenData(weatherData, pollenData)`. -/
def integratePollenData (w : Weather) (h : PollenHourly) : Weather :=
  let avgs := pollenAveragesOf h
  { w with
    pollen := some
      { averages := avgs
        dominant := dominantOf avgs
        totalScore := (avgs.map (fun c => c.2)).sum
        forageIndex := calculateForageIndex (avgs.map (fun c => c.2)) } }

/-! ## WeatherService: forecast processing and default snapshot -/

/-- `getDefaultWeather()`. -/
def getDefaultWeather : Weather :=
  { temperature := 15
    minTemp := 10
    maxTemp := 20
    humidity := 60
    rainfall := 800
    windSpeed := 15
    condition := "Data Unavailable"
    beeScore := 50
    pollen := none }

/-- The `daily` object of the forecast response. -/
structure DailyData where
  temperature_2m_max : List ℚ
  temperature_2m_min : List ℚ
  precipitation_sum : List ℚ
  windspeed_10m_max : List ℚ
  relative_humidity_2m_max : List ℚ
deriving DecidableEq

/-- A decoded forecast response body; `daily := none` models an absent
`daily` object. -/
structure WeatherApiData where
  daily : Option DailyData
deriving DecidableEq

/-- `Math.round(x * 10) / 10`: round to one decimal. -/
def roundTo1 (x : ℚ) : ℚ := (jsRound (x * 10) : ℚ) / 10

/-- `processWeatherData(data)`. -/
def processWeatherData (data : WeatherApiData) : Weather :=
  match data.daily with
  | none => getDefaultWeather
  | some daily =>
    if daily.temperature_2m_max.isEmpty then getDefaultWeather
    else
      let avgMaxTemp := calculateAverage daily.temperature_2m_max
      let avgMinTemp := calculateAverage daily.temperature_2m_min
      let avgTemp := (avgMaxTemp + avgMinTemp) / 2
      let totalRainfall := daily.precipitation_sum.sum
      let avgWindSpeed := calculateAverage daily.windspeed_10m_max
      let avgHumidity := calculateAverage daily.relative_humidity_2m_max
      { temperature := roundTo1 avgTemp
        minTemp := roundTo1 avgMinTemp
        maxTemp := roundTo1 avgMaxTemp
        humidity := jsRound avgHumidity
        rainfall := roundTo1 totalRainfall
        windSpeed := roundTo1 avgWindSpeed
        condition := getWeatherCondition avgTemp totalRainfall avgWindSpeed
        beeScore := calculateBeeScore avgTemp avgHumidity totalRainfall avgWindSpeed 50
        pollen := none }

/-! ## WeatherService: cache and the top-level fetch -/

/-- `cacheDuration`: 24 hours in milliseconds. -/
def cacheDuration : ℤ := 24 * 60 * 60 * 1000

/-- JavaScript `x.toFixed(4)` as the integer of ten-thousandths it
displays (rounding to the nearest 4-decimal value). -/
def toFixed4 (x : ℚ) : ℤ := jsRound (x * 10000)

/-- The cache key `` `${lat.toFixed(4)}_${lng.toFixed(4)}` ``, as the pair
of its two rounded components. -/
abbrev CacheKey := ℤ × ℤ

def cacheKeyOf (lat lng : ℚ) : CacheKey := (toFixed4 lat, toFixed4 lng)

/-- A cache entry `{data, timestamp}`. -/
structure CacheEntry where
  data : Weather
  timestamp : ℤ
deriving DecidableEq

/-- The JSON object stored under the weather-cache storage key, as a map
from rounded-coordinate keys to entries. -/
abbrev Cache := CacheKey → Option CacheEntry

/-- `delete cache[key]`. -/
def cacheErase (c : Cache) (k : CacheKey) : Cache :=
  fun q => if q = k then none else c q

/-- `cache[key] = e`. -/
def cacheInsert (c : Cache) (k : CacheKey) (e : CacheEntry) : Cache :=
  fun q => if q = k then some e else c q

/-- `getFromCache(lat, lng)`: returns the hit (if any) together with the
cache state it leaves behind (an expired or absent entry is deleted). -/
def getFromCache (now : ℤ) (c : Cache) (lat lng : ℚ) : Option Weather × Cache :=
  let k := cacheKeyOf lat lng
  match c k with
  | some e =>
    if now - e.timestamp < cacheDuration then (some e.data, c)
    else (none, cacheErase c k)
  | none => (none, cacheErase c k)

/-- `saveToCache(lat, lng, data)`. -/
def saveToCache (now : ℤ) (c : Cache) (lat lng : ℚ) (data : Weather) : Cache :=
  cacheInsert c (cacheKeyOf lat lng) { data := data, timestamp := now }

/-- Oracle responses for the two network requests of one
`getWeatherForPlot` call: `weatherResp = none` models a transport error,
a non-ok status or a JSON decode failure of the forecast request (all of
which throw before the pollen fetch); `pollenResp = none` models any
failure of the pollen request (absorbed silently). -/
structure FetchEnv where
  weatherResp : Option WeatherApiData
  pollenResp : Option PollenHourly
deriving DecidableEq

/-- Which network requests a `getWeatherForPlot` call issued. -/
structure FetchTrace where
  weatherFetched : Bool
  pollenFetched : Bool
deriving DecidableEq

/-- `getWeatherForPlot(lat, lng)`: returns the snapshot, the cache state
left behind, and the trace of requests issued. -/
def getWeatherForPlot (env : FetchEnv) (now : ℤ) (c : Cache) (lat lng : ℚ) :
    Weather × Cache × FetchTrace :=
  match getFromCache now c lat lng with
  | (some w, c1) => (w, c1, { weatherFetched := false, pollenFetched := false })
  | (none, c1) =>
    match env.weatherResp with
    | none =>
      (getDefaultWeather, c1, { weatherFetched := true, pollenFetched := false })
    | some wd =>
      let processed := processWeatherData wd
      let finalData :=
        match env.pollenResp with
        | some pd => integratePollenData processed pd
        | none => processed
      (finalData, saveToCache now c1 lat lng finalData,
        { weatherFetched := true, pollenFetched := true })

/-! ## StorageManager -/

/-- `StorageManager.load(key)` over an abstract backing store
(`localStorage.getItem`) and an abstract `JSON.parse` (`none` models a
parse failure, which in the source throws a `SyntaxError`). The source
returns `null` when the stored value is the empty string or absent, and
calls `JSON.parse` otherwise, without catching its exception. -/
def StorageManager.load {α : Type} (parseJSON : String → Option α)
    (store : String → Option String) (key : String) : Except String (Option α) :=
  match store key with
  | none => Except.ok none
  | some v =>
    if v.isEmpty then Except.ok none
    else
      match parseJSON v with
      | some a => Except.ok (some a)
      | none => Except.error "SyntaxError"

/-- A concrete `JSON.parse` instance on the domain of JSON boolean texts,
used to exercise `StorageManager.load` at concrete inputs. -/
def parseBoolJSON (s : String) : Option Bool :=
  if s = "true" then some true else if s = "false" then some false else none

/-! ## main.js: plots, filters, merge -/

/-- The fields of a plot record consulted by `applyFilters`; `hives` is
kept as its display string (numeric seed values coerce to their decimal
string under the source's `parseInt`). -/
structure Plot where
  id : String
  landType : String
  hives : String
deriving DecidableEq

/-- The controller filter state `{hiveCapacity, landType}`; `none` models
`null`, and the empty string (an unselected dropdown) is falsy as well. -/
structure Filters where
  hiveCapacity : Option String
  landType : Option String
deriving DecidableEq

/-- JavaScript truthiness of a string-or-null filter value. -/
def strTruthy : Option String → Bool
  | none => false
  | some s => !s.isEmpty

/-- JavaScript `parseInt` (radix 10): skip leading spaces, optional sign,
then the maximal run of leading decimal digits; `none` models `NaN`. -/
def parseIntJS (s : String) : Option ℤ :=
  let cs := s.data.dropWhile (fun ch => ch = ' ')
  let signAndDigits : ℤ × List Char :=
    match cs with
    | '-' :: rest => (-1, rest)
    | '+' :: rest => (1, rest)
    | _ => (1, cs)
  let ds := signAndDigits.2.takeWhile (fun ch => ch.isDigit)
  if ds.isEmpty then none
  else some (signAndDigits.1 *
    (ds.foldl (fun acc ch => acc * 10 + (ch.toNat - 48)) 0 : ℕ))

/-- `parseInt(p.hives) || 0`: the lenient numeric hive value. -/
def hivesNum (p : Plot) : ℤ := (parseIntJS p.hives).getD 0

/-- `app.applyFilters` restricted to its data transformation: the list of
plots retained from `state.allPlots` under the filter state (the
rendering side effects are outside the data model). -/
def applyFilters (allPlots : List Plot) (filters : Filters) : List Plot :=
  let filtered := allPlots
  let filtered :=
    if strTruthy filters.hiveCapacity then
      match parseIntJS (filters.hiveCapacity.getD "") with
      | some m => filtered.filter (fun p => decide (hivesNum p ≤ m))
      | none => filtered.filter (fun _ => false)
    else filtered
  let filtered :=
    if strTruthy filters.landType then
      filtered.filter (fun p => decide (p.landType = filters.landType.getD ""))
    else filtered
  filtered

/-- `app.loadCommunityPlots`, as the merged list it assigns to
`state.allPlots`: the fetched seed list concatenated with the stored
user list (`storage.load("user_plots") || []`). -/
def loadCommunityPlots (seedPlots : List Plot) (stored : Option (List Plot)) :
    List Plot :=
  seedPlots ++ stored.getD []

/-! ## Reference definitions written from the specification text -/

/-- Spec reference: temperature penalty tier (25 if `<10` or `>30`; else
15 if `<15` or `>25`; else 5 if `<18` or `>23`; else 0). -/
def temperaturePenalty (temp : ℚ) : ℚ :=
  if temp < 10 ∨ temp > 30 then 25
  else if temp < 15 ∨ temp > 25 then 15
  else if temp < 18 ∨ temp > 23 then 5
  else 0

/-- Spec reference: humidity penalty tier. -/
def humidityPenalty (humidity : ℚ) : ℚ :=
  if humidity < 30 ∨ humidity > 80 then 15
  else if humidity < 40 ∨ humidity > 75 then 5
  else 0

/-- Spec reference: wind penalty tier. -/
def windPenalty (windSpeed : ℚ) : ℚ :=
  if windSpeed > 40 then 20
  else if windSpeed > 30 then 10
  else if windSpeed > 20 then 5
  else 0

/-- Spec reference: rainfall penalty tier. -/
def rainfallPenalty (rainfall : ℚ) : ℚ :=
  if rainfall < 300 then 10
  else if rainfall > 2000 then 10
  else 0

/-- Spec reference for the bee score: independent penalties subtracted
from 100, blended 90/10 with the forage index, clamped to `[0, 100]`. -/
def specBeeScore (temp humidity rainfall windSpeed forageIndex : ℚ) : ℚ :=
  max 0 (min 100
    ((100 - temperaturePenalty temp - humidityPenalty humidity
        - windPenalty windSpeed - rainfallPenalty rainfall) * (9 / 10)
      + forageIndex * (1 / 10)))

/-- Spec reference (claim C5 wording) for one species contribution: 0
below 50 units; linear 0→50 between 50 and 500; linear 50→80 between 500
and 2000; linear 80→95 between 2000 and 5000; 100 at or above 5000 —
each linear ramp interpolating its stated endpoint values, with no
intermediate rounding. -/
def specContribution (v : ℚ) : ℚ :=
  if v < 50 then 0
  else if v < 500 then 0 + (v - 50) / (500 - 50) * (50 - 0)
  else if v < 2000 then 50 + (v - 500) / (2000 - 500) * (80 - 50)
  else if v < 5000 then 80 + (v - 2000) / (5000 - 2000) * (95 - 80)
  else 100

/-- Spec reference (claim C5 wording) for the forage index: the
contributions of species with positive averages plus the baseline 50 are
summed, divided by (count of contributing species + 1), rounded to
nearest integer, and clamped to `[0, 100]`. -/
def specForageIndex (l : List ℚ) : ℤ :=
  let contributing := l.filter (fun v => decide (0 < v))
  let total : ℚ := 50 + (contributing.map specContribution).sum
  min 100 (max 0 (jsRound (total / (contributing.length + 1))))

/-- Amended reference for one species contribution (claim C5 corrected):
the first ramp is the line from 0 at 0 to 50 at 500 restricted to
`[50, 500)` — so value 50 contributes 5, not 0 — and every ramp value is
rounded to the nearest integer before summing. -/
def amendedContribution (v : ℚ) : ℤ :=
  if v < 50 then 0
  else if v < 500 then jsRound (v * 50 / 500)
  else if v < 2000 then 50 + jsRound ((v - 500) * 30 / 1500)
  else if v < 5000 then 80 + jsRound ((v - 2000) * 15 / 3000)
  else 100

/-- Amended reference for the forage index (claim C5 corrected): rounded
per-species contributions plus the baseline 50 are summed; when at least
one species contributes, the sum is divided by (count + 1) and rounded to
the nearest integer; the result is clamped to `[0, 100]`. -/
def amendedForageIndex (l : List ℚ) : ℤ :=
  let contributing := l.filter (fun v => decide (0 < v))
  let total : ℤ := 50 + (contributing.map amendedContribution).sum
  let averaged : ℤ :=
    if contributing.isEmpty then total
    else jsRound ((total : ℚ) / (contributing.length + 1))
  min 100 (max 0 averaged)

/-- Spec reference (claim C9 wording) for the dominant species: the first
candidate attaining the highest average, or `"none"` when no candidate
has a strictly positive average. -/
def specDominant (avgs : List (String × ℚ)) : String :=
  let highest := avgs.foldl (fun m c => max m c.2) 0
  if highest ≤ 0 then "none"
  else
    match avgs.find? (fun c => decide (highest ≤ c.2)) with
    | some c => c.1
    | none => "none"

/-- Spec reference (claim C6 wording): under a hive-capacity ceiling a
plot passes iff its leniently parsed numeric hive value is at most the
ceiling; an absent ceiling imposes no constraint. -/
def passesHive (ceiling : Option ℤ) (p : Plot) : Bool :=
  match ceiling with
  | none => true
  | some m => decide (hivesNum p ≤ m)

/-- Spec reference (claim C6 wording): under a land-type constraint a
plot passes iff its land-type field is exactly equal to it; an absent
constraint imposes no constraint. -/
def passesLand (constraint : Option String) (p : Plot) : Bool :=
  match constraint with
  | none => true
  | some t => decide (p.landType = t)

/-! ## Helper lemmas -/

theorem jsRound_mono {x y : ℚ} (h : x ≤ y) : jsRound x ≤ jsRound y :=
  Int.floor_mono (by linarith)

theorem jsRound_le_int {x : ℚ} {n : ℤ} (h : x ≤ (n : ℚ)) : jsRound x ≤ n := by
  have hlt : (x + 1 / 2 : ℚ) < ((n + 1 : ℤ) : ℚ) := by push_cast; linarith
  have h2 := Int.floor_lt.mpr hlt
  unfold jsRound
  omega

theorem int_le_jsRound {x : ℚ} {n : ℤ} (h : (n : ℚ) ≤ x) : n ≤ jsRound x := by
  unfold jsRound
  exact Int.le_floor.mpr (by linarith)

/-! ## Claim C4 -/

theorem sub_temperaturePenalty (s temp : ℚ) :
    (if temp < 10 ∨ temp > 30 then s - 25
     else if temp < 15 ∨ temp > 25 then s - 15
     else if temp < 18 ∨ temp > 23 then s - 5
     else s) = s - temperaturePenalty temp := by
  unfold temperaturePenalty
  split_ifs <;> ring

theorem sub_humidityPenalty (s humidity : ℚ) :
    (if humidity < 30 ∨ humidity > 80 then s - 15
     else if humidity < 40 ∨ humidity > 75 then s - 5
     else s) = s - humidityPenalty humidity := by
  unfold humidityPenalty
  split_ifs <;> ring

theorem sub_windPenalty (s windSpeed : ℚ) :
    (if windSpeed > 40 then s - 20
     else if windSpeed > 30 then s - 10
     else if windSpeed > 20 then s - 5
     else s) = s - windPenalty windSpeed := by
  unfold windPenalty
  split_ifs <;> ring

theorem sub_rainfallPenalty (s rainfall : ℚ) :
    (if rainfall < 300 then s - 10
     else if rainfall > 2000 then s - 10
     else s) = s - rainfallPenalty rainfall := by
  unfold rainfallPenalty
  split_ifs <;> ring

/-- Claim C4: for all inputs, `calculateBeeScore` equals the clamp of
`(100 − temperaturePenalty − humidityPenalty − windPenalty −
rainfallPenalty) × 0.9 + forageIndex × 0.1` to `[0, 100]` with the
penalty tiers of the spec, and at temperature 20, humidity 60, rainfall
800, wind speed 10 with the neutral forage index 50 it returns exactly
95. -/
theorem calculateBeeScore_spec_formula :
    (∀ temp humidity rainfall windSpeed forageIndex : ℚ,
      calculateBeeScore temp humidity rainfall windSpeed forageIndex =
        specBeeScore temp humidity rainfall windSpeed forageIndex) ∧
    calculateBeeScore 20 60 800 10 50 = 95 := by
  constructor
  · intro temp humidity rainfall windSpeed forageIndex
    simp only [calculateBeeScore, specBeeScore]
    rw [sub_temperaturePenalty, sub_humidityPenalty, sub_windPenalty,
      sub_rainfallPenalty]
  · simp only [calculateBeeScore]
    norm_num [min_def, max_def]

/-! ## Claim C7 -/

/-- Claim C7: loading all plots returns the seed sequence concatenated
with the stored user sequence (empty when absent), seed-first, with no
deduplication and no reordering; in particular seed `[A, B]` plus stored
`[C]` yields exactly `[A, B, C]`. -/
theorem loadCommunityPlots_concat :
    (∀ seed user : List Plot,
       loadCommunityPlots seed (some user) = seed ++ user ∧
       (loadCommunityPlots seed (some user)).length = seed.length + user.length) ∧
    (∀ seed : List Plot, loadCommunityPlots seed none = seed) ∧
    loadCommunityPlots [⟨"A", "t", "1"⟩, ⟨"B", "t", "2"⟩]
        (some [⟨"C", "t", "3"⟩]) =
      [⟨"A", "t", "1"⟩, ⟨"B", "t", "2"⟩, ⟨"C", "t", "3"⟩] := by
  refine ⟨fun seed user => ⟨rfl, by simp [loadCommunityPlots]⟩,
    fun seed => by simp [loadCommunityPlots], rfl⟩

/-! ## Claim C2 -/

/-- Claim C2 counterexample: with the key set to the non-empty text
`"x"`, which fails to parse as JSON, `StorageManager.load` propagates the
parse error to the caller instead of returning the null sentinel. -/
theorem load_parse_failure_raises :
    StorageManager.load parseBoolJSON
        (fun k => if k = "cfg" then some "x" else none) "cfg" =
      Except.error "SyntaxError" ∧
    StorageManager.load parseBoolJSON
        (fun k => if k = "cfg" then some "x" else none) "cfg" ≠
      Except.ok none := by
  constructor
  · rfl
  · intro h
    rw [show StorageManager.load parseBoolJSON
          (fun k => if k = "cfg" then some "x" else none) "cfg" =
        Except.error "SyntaxError" from rfl] at h
    exact Except.noConfusion h

/-- Claim C2 (amended): `load(key)` returns the deserialized value when
the stored text parses as JSON, and returns the null sentinel when the
key is unset or holds the empty string; but when a stored non-empty text
fails to parse as JSON, the `JSON.parse` error propagates to the caller
rather than being treated as absence. -/
theorem load_amended_contract :
    ∀ (α : Type) (parseJSON : String → Option α)
      (store : String → Option String) (key : String),
      (store key = none → StorageManager.load parseJSON store key = Except.ok none) ∧
      (store key = some "" → StorageManager.load parseJSON store key = Except.ok none) ∧
      (∀ v a, store key = some v → v ≠ "" → parseJSON v = some a →
        StorageManager.load parseJSON store key = Except.ok (some a)) ∧
      (∀ v, store key = some v → v ≠ "" → parseJSON v = none →
        StorageManager.load parseJSON store key = Except.error "SyntaxError") := by
  intro α parseJSON store key
  refine ⟨fun h => by simp [StorageManager.load, h], fun h => by
    simp [StorageManager.load, h, String.isEmpty_iff],
    fun v a hv hne hp => ?_, fun v hv hne hp => ?_⟩
  · have he : v.isEmpty = false := by
      cases hb : v.isEmpty
      · rfl
      · exact absurd ((String.isEmpty_iff v).mp hb) hne
    simp [StorageManager.load, hv, he, hp]
  · have he : v.isEmpty = false := by
      cases hb : v.isEmpty
      · rfl
      · exact absurd ((String.isEmpty_iff v).mp hb) hne
    simp [StorageManager.load, hv, he, hp]

/-- Witness for the amended claim C2, at the boolean JSON texts. -/
theorem load_amended_contract_witness :
    ((fun k => if k = "b" then some "true" else none) "b" = some "true" ∧
     ("true" : String) ≠ "" ∧ parseBoolJSON "true" = some true) ∧
    StorageManager.load parseBoolJSON
        (fun k => if k = "b" then some "true" else none) "b" =
      Except.ok (some true) :=
  ⟨⟨rfl, by decide, rfl⟩,
    (load_amended_contract Bool parseBoolJSON
          (fun k => if k = "b" then some "true" else none) "b").2.2.1
      "true" true rfl (by decide) rfl⟩

/-! ## Claim C5 -/

/-- Claim C5 counterexample: at the single positive average 107,
`calculateForageIndex` returns 31 (it rounds the first-ramp contribution
`107/10` to 11 before summing) while the specification's reference —
contribution linear 0→50 between 50 and 500 with no intermediate
rounding — yields 28. -/
theorem forageIndex_differs_from_spec_reference :
    calculateForageIndex [107] = 31 ∧ specForageIndex [107] = 28 ∧
    calculateForageIndex [107] ≠ specForageIndex [107] := by
  refine ⟨?_, ?_, ?_⟩ <;>
    norm_num [calculateForageIndex, specForageIndex, optimalRange,
      specContribution, jsRound, min_def, max_def]

/-- Claim C5 (amended): `calculateForageIndex` equals the reference in
which each species with a positive average contributes 0 below 50 units,
`round(value·50/500)` between 50 and 500 (the ramp is the line through 0
at 0 and 50 at 500, so value 50 contributes 5), `50 +
round((value−500)·30/1500)` between 500 and 2000, `80 +
round((value−2000)·15/3000)` between 2000 and 5000, and 100 at or above
5000 — each ramp value rounded to the nearest integer before summing;
the contributions plus the baseline 50 are summed, divided by (count of
contributing species + 1) with rounding to nearest when at least one
species contributes, and clamped to `[0, 100]`. -/
theorem forageIndex_amended_reference :
    ∀ l : List ℚ, calculateForageIndex l = amendedForageIndex l := by
  have hc : ∀ v : ℚ, optimalRange v = amendedContribution v := by
    intro v
    unfold optimalRange amendedContribution
    have e1 : v / 500 * 50 = v * 50 / 500 := by ring
    have e2 : (v - 500) / 1500 * 30 = (v - 500) * 30 / 1500 := by ring
    have e3 : (v - 2000) / 3000 * 15 = (v - 2000) * 15 / 3000 := by ring
    rw [e1, e2, e3]
  intro l
  simp only [calculateForageIndex, amendedForageIndex]
  have hmap : (l.filter (fun v => decide (0 < v))).map optimalRange =
      (l.filter (fun v => decide (0 < v))).map amendedContribution :=
    List.map_congr_left (fun a _ => hc a)
  rw [hmap]
  cases hfil : l.filter (fun v => decide (0 < v)) with
  | nil => simp [hfil]
  | cons a as => simp [hfil]

/-! ## Cache behaviour: helper lemmas -/

theorem getFromCache_hit (now : ℤ) (c : Cache) (lat lng : ℚ) (e : CacheEntry)
    (he : c (cacheKeyOf lat lng) = some e)
    (hf : now - e.timestamp < cacheDuration) :
    getFromCache now c lat lng = (some e.data, c) := by
  simp only [getFromCache, he, if_pos hf]

theorem getFromCache_miss (now : ℤ) (c : Cache) (lat lng : ℚ)
    (h : ∀ e, c (cacheKeyOf lat lng) = some e → ¬ now - e.timestamp < cacheDuration) :
    getFromCache now c lat lng = (none, cacheErase c (cacheKeyOf lat lng)) := by
  simp only [getFromCache]
  cases he : c (cacheKeyOf lat lng) with
  | none => rfl
  | some e => simp only [if_neg (h e he)]

theorem getWeatherForPlot_hit (env : FetchEnv) (now : ℤ) (c : Cache)
    (lat lng : ℚ) (e : CacheEntry)
    (he : c (cacheKeyOf lat lng) = some e)
    (hf : now - e.timestamp < cacheDuration) :
    getWeatherForPlot env now c lat lng =
      (e.data, c, { weatherFetched := false, pollenFetched := false }) := by
  simp only [getWeatherForPlot, getFromCache_hit now c lat lng e he hf]

theorem getWeatherForPlot_miss_fail (env : FetchEnv) (now : ℤ) (c : Cache)
    (lat lng : ℚ)
    (hmiss : ∀ e, c (cacheKeyOf lat lng) = some e → ¬ now - e.timestamp < cacheDuration)
    (hresp : env.weatherResp = none) :
    getWeatherForPlot env now c lat lng =
      (getDefaultWeather, cacheErase c (cacheKeyOf lat lng),
        { weatherFetched := true, pollenFetched := false }) := by
  simp only [getWeatherForPlot, getFromCache_miss now c lat lng hmiss, hresp]

theorem getWeatherForPlot_miss_success (env : FetchEnv) (now : ℤ) (c : Cache)
    (lat lng : ℚ) (wd : WeatherApiData)
    (hmiss : ∀ e, c (cacheKeyOf lat lng) = some e → ¬ now - e.timestamp < cacheDuration)
    (hresp : env.weatherResp = some wd) :
    getWeatherForPlot env now c lat lng =
      ((match env.pollenResp with
        | some pd => integratePollenData (processWeatherData wd) pd
        | none => processWeatherData wd),
       saveToCache now (cacheErase c (cacheKeyOf lat lng)) lat lng
         (match env.pollenResp with
          | some pd => integratePollenData (processWeatherData wd) pd
          | none => processWeatherData wd),
       { weatherFetched := true, pollenFetched := true }) := by
  simp only [getWeatherForPlot, getFromCache_miss now c lat lng hmiss, hresp]

/-! ## Claim C3 -/

/-- Claim C3: when there is no valid cache entry for the coordinate and
the forecast request fails at the transport or decoding level,
`getWeatherForPlot` returns normally with exactly the default snapshot —
temperature 15, minTemp 10, maxTemp 20, humidity 60, rainfall 800, wind
speed 15, condition "Data Unavailable", beeScore 50, no pollen block —
and issues no pollen request. -/
theorem getWeatherForPlot_default_on_weather_failure :
    ∀ (env : FetchEnv) (now : ℤ) (c : Cache) (lat lng : ℚ),
      (∀ e, c (cacheKeyOf lat lng) = some e → ¬ now - e.timestamp < cacheDuration) →
      env.weatherResp = none →
      getWeatherForPlot env now c lat lng =
        (getDefaultWeather, cacheErase c (cacheKeyOf lat lng),
          { weatherFetched := true, pollenFetched := false }) ∧
      getDefaultWeather =
        { temperature := 15, minTemp := 10, maxTemp := 20, humidity := 60,
          rainfall := 800, windSpeed := 15, condition := "Data Unavailable",
          beeScore := 50, pollen := none } := by
  intro env now c lat lng hmiss hresp
  exact ⟨getWeatherForPlot_miss_fail env now c lat lng hmiss hresp, rfl⟩

/-- Witness for claim C3: an empty cache and a failing forecast request
at the origin coordinate. -/
theorem getWeatherForPlot_default_on_weather_failure_witness :
    ((∀ e, (fun _ => none : Cache) (cacheKeyOf 0 0) = some e →
        ¬ (0 : ℤ) - e.timestamp < cacheDuration) ∧
     (⟨none, none⟩ : FetchEnv).weatherResp = none) ∧
    getWeatherForPlot ⟨none, none⟩ 0 (fun _ => none) 0 0 =
      (getDefaultWeather, cacheErase (fun _ => none) (cacheKeyOf 0 0),
        { weatherFetched := true, pollenFetched := false }) :=
  ⟨⟨fun e he => Option.noConfusion he, rfl⟩,
    (getWeatherForPlot_default_on_weather_failure ⟨none, none⟩ 0
      (fun _ => none) 0 0 (fun e he => Option.noConfusion he) rfl).1⟩

/-! ## Claim C10 -/

/-- Claim C10: when the forecast request fails and `getWeatherForPlot`
returns the default snapshot through its error path, no cache entry is
written under the coordinate's rounded key, so a subsequent call for the
same coordinate misses the cache and re-attempts the network fetch. -/
theorem no_cache_write_on_failure :
    ∀ (env : FetchEnv) (now : ℤ) (c : Cache) (lat lng : ℚ),
      (∀ e, c (cacheKeyOf lat lng) = some e → ¬ now - e.timestamp < cacheDuration) →
      env.weatherResp = none →
      (getWeatherForPlot env now c lat lng).1 = getDefaultWeather ∧
      (getWeatherForPlot env now c lat lng).2.1 (cacheKeyOf lat lng) = none ∧
      (∀ (env2 : FetchEnv) (now2 : ℤ),
        (getWeatherForPlot env2 now2
            (getWeatherForPlot env now c lat lng).2.1 lat lng).2.2.weatherFetched
          = true) := by
  intro env now c lat lng hmiss hresp
  rw [getWeatherForPlot_miss_fail env now c lat lng hmiss hresp]
  have hkey : cacheErase c (cacheKeyOf lat lng) (cacheKeyOf lat lng) = none := by
    simp [cacheErase]
  refine ⟨rfl, hkey, fun env2 now2 => ?_⟩
  have hmiss2 : ∀ e, cacheErase c (cacheKeyOf lat lng) (cacheKeyOf lat lng) = some e →
      ¬ now2 - e.timestamp < cacheDuration := by
    intro e he
    rw [hkey] at he
    exact Option.noConfusion he
  cases hresp2 : env2.weatherResp with
  | none =>
    rw [getWeatherForPlot_miss_fail env2 now2 _ lat lng hmiss2 hresp2]
  | some wd =>
    rw [getWeatherForPlot_miss_success env2 now2 _ lat lng wd hmiss2 hresp2]

/-- Witness for claim C10: an empty cache and a failing forecast request
at the origin coordinate. -/
theorem no_cache_write_on_failure_witness :
    (getWeatherForPlot ⟨none, none⟩ 0 (fun _ => none) 0 0).2.1 (cacheKeyOf 0 0)
      = none ∧
    (getWeatherForPlot ⟨none, some ⟨none, none, none, none, none, none⟩⟩ 5
        (getWeatherForPlot ⟨none, none⟩ 0 (fun _ => none) 0 0).2.1
        0 0).2.2.weatherFetched = true :=
  ⟨((no_cache_write_on_failure ⟨none, none⟩ 0 (fun _ => none) 0 0
      (fun e he => Option.noConfusion he) rfl).2).1,
   ((no_cache_write_on_failure ⟨none, none⟩ 0 (fun _ => none) 0 0
      (fun e he => Option.noConfusion he) rfl).2).2
     ⟨none, some ⟨none, none, none, none, none, none⟩⟩ 5⟩

/-! ## Claim C8 -/

/-- Claim C8: a cache entry under the rounded-coordinate key that is
less than 24 hours old is returned verbatim with no network request; and
after a first call that misses the cache and fetches successfully, a
second call for the same coordinate within 24 hours performs no fetch
and returns a snapshot identical to the first call's. -/
theorem cache_hit_and_second_call :
    (∀ (env : FetchEnv) (now : ℤ) (c : Cache) (lat lng : ℚ) (e : CacheEntry),
       c (cacheKeyOf lat lng) = some e → now - e.timestamp < cacheDuration →
       getWeatherForPlot env now c lat lng =
         (e.data, c, { weatherFetched := false, pollenFetched := false })) ∧
    (∀ (env env2 : FetchEnv) (now now2 : ℤ) (c : Cache) (lat lng : ℚ)
       (wd : WeatherApiData),
       (∀ e, c (cacheKeyOf lat lng) = some e → ¬ now - e.timestamp < cacheDuration) →
       env.weatherResp = some wd →
       now2 - now < cacheDuration →
       (getWeatherForPlot env now c lat lng).2.2.weatherFetched = true ∧
       getWeatherForPlot env2 now2 (getWeatherForPlot env now c lat lng).2.1 lat lng =
         ((getWeatherForPlot env now c lat lng).1,
          (getWeatherForPlot env now c lat lng).2.1,
          { weatherFetched := false, pollenFetched := false })) := by
  constructor
  · intro env now c lat lng e he hf
    exact getWeatherForPlot_hit env now c lat lng e he hf
  · intro env env2 now now2 c lat lng wd hmiss hresp hfresh
    rw [getWeatherForPlot_miss_success env now c lat lng wd hmiss hresp]
    refine ⟨rfl, ?_⟩
    have hkey : saveToCache now (cacheErase c (cacheKeyOf lat lng)) lat lng
        (match env.pollenResp with
         | some pd => integratePollenData (processWeatherData wd) pd
         | none => processWeatherData wd) (cacheKeyOf lat lng) =
        some ⟨(match env.pollenResp with
               | some pd => integratePollenData (processWeatherData wd) pd
               | none => processWeatherData wd), now⟩ := by
      simp [saveToCache, cacheInsert]
    exact getWeatherForPlot_hit env2 now2 _ lat lng _ hkey hfresh

/-- Witness for claim C8: an empty cache, a successful (empty-`daily`)
forecast response, and a second call 5 ms later. -/
theorem cache_hit_and_second_call_witness :
    ((⟨some ⟨none⟩, none⟩ : FetchEnv).weatherResp = some ⟨none⟩ ∧
     (5 : ℤ) - 0 < cacheDuration) ∧
    getWeatherForPlot ⟨some ⟨none⟩, none⟩ 5
        (getWeatherForPlot ⟨some ⟨none⟩, none⟩ 0 (fun _ => none) 0 0).2.1 0 0 =
      ((getWeatherForPlot ⟨some ⟨none⟩, none⟩ 0 (fun _ => none) 0 0).1,
       (getWeatherForPlot ⟨some ⟨none⟩, none⟩ 0 (fun _ => none) 0 0).2.1,
       { weatherFetched := false, pollenFetched := false }) :=
  ⟨⟨rfl, by norm_num [cacheDuration]⟩,
    ((cache_hit_and_second_call.2 ⟨some ⟨none⟩, none⟩ ⟨some ⟨none⟩, none⟩ 0 5
      (fun _ => none) 0 0 ⟨none⟩ (fun e he => Option.noConfusion he) rfl
      (by norm_num [cacheDuration])).2)⟩

/-! ## Claim C1: bounds and monotonicity of the forage index -/

theorem optimalRange_nonneg (v : ℚ) : 0 ≤ optimalRange v := by
  unfold optimalRange
  split_ifs with h1 h2 h3 h4
  · exact le_refl 0
  · exact int_le_jsRound (by push_cast; linarith)
  · have h := int_le_jsRound (n := 0) (x := (v - 500) / 1500 * 30)
      (by push_cast; linarith)
    omega
  · have h := int_le_jsRound (n := 0) (x := (v - 2000) / 3000 * 15)
      (by push_cast; linarith)
    omega
  · norm_num

theorem optimalRange_le_100 (v : ℚ) : optimalRange v ≤ 100 := by
  unfold optimalRange
  split_ifs with h1 h2 h3 h4
  · norm_num
  · have h := jsRound_le_int (n := 50) (x := v / 500 * 50) (by push_cast; linarith)
    omega
  · have h := jsRound_le_int (n := 30) (x := (v - 500) / 1500 * 30)
      (by push_cast; linarith)
    omega
  · have h := jsRound_le_int (n := 15) (x := (v - 2000) / 3000 * 15)
      (by push_cast; linarith)
    omega
  · norm_num

theorem optimalRange_le_50 {v : ℚ} (hv : v < 500) : optimalRange v ≤ 50 := by
  unfold optimalRange
  split_ifs with h1
  · norm_num
  · exact jsRound_le_int (by push_cast; linarith)

theorem le_50_optimalRange {v : ℚ} (hv : 500 ≤ v) : 50 ≤ optimalRange v := by
  unfold optimalRange
  split_ifs with h1 h2 h3 h4
  · linarith
  · linarith
  · have h := int_le_jsRound (n := 0) (x := (v - 500) / 1500 * 30)
      (by push_cast; linarith)
    omega
  · have h := int_le_jsRound (n := 0) (x := (v - 2000) / 3000 * 15)
      (by push_cast; linarith)
    omega
  · norm_num

theorem optimalRange_le_80 {v : ℚ} (hv : v < 2000) : optimalRange v ≤ 80 := by
  unfold optimalRange
  split_ifs with h1 h2
  · norm_num
  · have h := jsRound_le_int (n := 50) (x := v / 500 * 50) (by push_cast; linarith)
    omega
  · have h := jsRound_le_int (n := 30) (x := (v - 500) / 1500 * 30)
      (by push_cast; linarith)
    omega

theorem le_80_optimalRange {v : ℚ} (hv : 2000 ≤ v) : 80 ≤ optimalRange v := by
  unfold optimalRange
  split_ifs with h1 h2 h3 h4
  · linarith
  · linarith
  · linarith
  · have h := int_le_jsRound (n := 0) (x := (v - 2000) / 3000 * 15)
      (by push_cast; linarith)
    omega
  · norm_num

theorem optimalRange_eq_100 {v : ℚ} (hv : 5000 ≤ v) : optimalRange v = 100 := by
  unfold optimalRange
  split_ifs with h1 h2 h3 h4 <;> first | rfl | linarith

theorem optimalRange_mono {v w : ℚ} (hvw : v ≤ w) :
    optimalRange v ≤ optimalRange w := by
  rcases lt_or_le w 50 with hw1 | hw1
  · have hv1 : v < 50 := lt_of_le_of_lt hvw hw1
    unfold optimalRange
    rw [if_pos hv1, if_pos hw1]
  · rcases lt_or_le w 500 with hw2 | hw2
    · rcases lt_or_le v 50 with hv1 | hv1
      · have h0 : optimalRange v = 0 := by unfold optimalRange; rw [if_pos hv1]
        rw [h0]
        exact optimalRange_nonneg w
      · have hv2 : v < 500 := lt_of_le_of_lt hvw hw2
        have e1 : optimalRange v = jsRound (v / 500 * 50) := by
          unfold optimalRange
          rw [if_neg (not_lt.mpr hv1), if_pos hv2]
        have e2 : optimalRange w = jsRound (w / 500 * 50) := by
          unfold optimalRange
          rw [if_neg (not_lt.mpr hw1), if_pos hw2]
        rw [e1, e2]
        exact jsRound_mono (by linarith)
    · rcases lt_or_le w 2000 with hw3 | hw3
      · rcases lt_or_le v 500 with hv2 | hv2
        · exact le_trans (optimalRange_le_50 hv2) (le_50_optimalRange hw2)
        · have hv3 : v < 2000 := lt_of_le_of_lt hvw hw3
          have e1 : optimalRange v = 50 + jsRound ((v - 500) / 1500 * 30) := by
            unfold optimalRange
            rw [if_neg (by push_neg; linarith), if_neg (not_lt.mpr hv2), if_pos hv3]
          have e2 : optimalRange w = 50 + jsRound ((w - 500) / 1500 * 30) := by
            unfold optimalRange
            rw [if_neg (by push_neg; linarith), if_neg (not_lt.mpr hw2), if_pos hw3]
          rw [e1, e2]
          exact add_le_add_left (jsRound_mono (by linarith)) 50
      · rcases lt_or_le w 5000 with hw4 | hw4
        · rcases lt_or_le v 2000 with hv3 | hv3
          · exact le_trans (optimalRange_le_80 hv3) (le_80_optimalRange hw3)
          · have hv4 : v < 5000 := lt_of_le_of_lt hvw hw4
            have e1 : optimalRange v = 80 + jsRound ((v - 2000) / 3000 * 15) := by
              unfold optimalRange
              rw [if_neg (by push_neg; linarith), if_neg (by push_neg; linarith),
                if_neg (not_lt.mpr hv3), if_pos hv4]
            have e2 : optimalRange w = 80 + jsRound ((w - 2000) / 3000 * 15) := by
              unfold optimalRange
              rw [if_neg (by push_neg; linarith), if_neg (by push_neg; linarith),
                if_neg (not_lt.mpr hw3), if_pos hw4]
            rw [e1, e2]
            exact add_le_add_left (jsRound_mono (by linarith)) 80
        · rw [optimalRange_eq_100 hw4]
          exact optimalRange_le_100 v

/-- Claim C1 counterexample: raising a species' average from 0 to 10
(all other species held fixed, here absent) strictly lowers
`calculateForageIndex` from the baseline 50 to 25, because the species
starts counting toward the divisor while contributing 0 to the sum — so
the index is not monotonically non-decreasing in each species' average. -/
theorem forageIndex_zero_to_positive_drop :
    (0 : ℚ) ≤ 10 ∧ calculateForageIndex [0] = 50 ∧
    calculateForageIndex [10] = 25 ∧
    ¬ calculateForageIndex [0] ≤ calculateForageIndex [10] := by
  have h0 : calculateForageIndex [0] = 50 := by
    norm_num [calculateForageIndex, min_def, max_def]
  have h1 : calculateForageIndex [10] = 25 := by
    norm_num [calculateForageIndex, optimalRange, jsRound, min_def, max_def]
  refine ⟨by norm_num, h0, h1, ?_⟩
  rw [h0, h1]
  norm_num

/-- Claim C1 (amended): for non-negative per-species averages the result
of `calculateForageIndex` lies in `[0, 100]`, the all-zero input returns
the baseline 50, and the index is monotonically non-decreasing in each
species' average holding the others fixed as long as that average stays
strictly positive; monotonicity fails only at the transition from zero
to a positive average (see the counterexample). -/
theorem forageIndex_range_baseline_posMonotone :
    (∀ l : List ℚ, (∀ x ∈ l, 0 ≤ x) →
       0 ≤ calculateForageIndex l ∧ calculateForageIndex l ≤ 100) ∧
    (∀ l : List ℚ, (∀ x ∈ l, x = 0) → calculateForageIndex l = 50) ∧
    (∀ (l1 l2 : List ℚ) (v w : ℚ), 0 < v → v ≤ w →
       calculateForageIndex (l1 ++ v :: l2) ≤
         calculateForageIndex (l1 ++ w :: l2)) := by
  refine ⟨?_, ?_, ?_⟩
  · intro l hl
    simp only [calculateForageIndex]
    exact ⟨le_min (by norm_num) (le_max_left 0 _), min_le_left _ _⟩
  · intro l hl
    have hfil : l.filter (fun v => decide (0 < v)) = [] := by
      rw [List.filter_eq_nil_iff]
      intro a ha
      simp [hl a ha]
    norm_num [calculateForageIndex, hfil, min_def, max_def]
  · intro l1 l2 v w hv hvw
    have hw : 0 < w := lt_of_lt_of_le hv hvw
    have hfv : (l1 ++ v :: l2).filter (fun x => decide (0 < x)) =
        l1.filter (fun x => decide (0 < x)) ++
          v :: l2.filter (fun x => decide (0 < x)) := by
      simp [List.filter_append, List.filter_cons, hv]
    have hfw : (l1 ++ w :: l2).filter (fun x => decide (0 < x)) =
        l1.filter (fun x => decide (0 < x)) ++
          w :: l2.filter (fun x => decide (0 < x)) := by
      simp [List.filter_append, List.filter_cons, hw]
    simp only [calculateForageIndex, hfv, hfw, List.map_append, List.map_cons,
      List.sum_append, List.sum_cons, List.length_append, List.length_cons]
    have hn : 0 < (l1.filter (fun x => decide (0 < x))).length +
        ((l2.filter (fun x => decide (0 < x))).length + 1) :=
      lt_of_lt_of_le (Nat.succ_pos _) (Nat.le_add_left _ _)
    rw [if_pos hn, if_pos hn]
    refine min_le_min (le_refl 100) (max_le_max (le_refl 0) (jsRound_mono ?_))
    rw [div_eq_mul_inv, div_eq_mul_inv]
    refine mul_le_mul_of_nonneg_right (Int.cast_le.mpr ?_)
      (inv_nonneg.mpr (by positivity))
    have hOR := optimalRange_mono hvw
    linarith

/-- Witness for the amended claim C1. -/
theorem forageIndex_range_baseline_posMonotone_witness :
    (0 ≤ calculateForageIndex [3] ∧ calculateForageIndex [3] ≤ 100) ∧
    calculateForageIndex [0, 0] = 50 ∧
    calculateForageIndex ([] ++ (1 : ℚ) :: [0]) ≤
      calculateForageIndex ([] ++ (2 : ℚ) :: [0]) :=
  ⟨forageIndex_range_baseline_posMonotone.1 [3] (by norm_num),
   forageIndex_range_baseline_posMonotone.2.1 [0, 0] (by
     intro x hx
     rcases List.mem_cons.mp hx with h | h
     · exact h
     · simpa using h),
   forageIndex_range_baseline_posMonotone.2.2 [] [0] 1 2 (by norm_num)
     (by norm_num)⟩

/-! ## Claim C9: the dominant-species reduce -/

theorem le_foldl_max (l : List (String × ℚ)) (q : ℚ) :
    q ≤ l.foldl (fun m e => max m e.2) q := by
  induction l generalizing q with
  | nil => exact le_refl q
  | cons c t ih =>
    simp only [List.foldl_cons]
    exact le_trans (le_max_left q c.2) (ih (max q c.2))

theorem mem_le_foldl_max (c : String × ℚ) :
    ∀ (l : List (String × ℚ)) (q : ℚ), c ∈ l →
      c.2 ≤ l.foldl (fun m e => max m e.2) q := by
  intro l
  induction l with
  | nil => intro q hc; cases hc
  | cons a t ih =>
    intro q hc
    simp only [List.foldl_cons]
    rcases List.mem_cons.mp hc with h | h
    · subst h
      exact le_trans (le_max_right q c.2) (le_foldl_max t _)
    · exact ih _ h

theorem foldl_dominantStep_of_le :
    ∀ (l : List (String × ℚ)) (a : String × ℚ), (∀ c ∈ l, c.2 ≤ a.2) →
      l.foldl dominantStep a = a := by
  intro l
  induction l with
  | nil => intro a h; rfl
  | cons c t ih =>
    intro a h
    simp only [List.foldl_cons]
    have hstep : dominantStep a c = a := by
      unfold dominantStep
      rw [if_neg (not_lt.mpr (h c (List.mem_cons_self c t)))]
    rw [hstep]
    exact ih a (fun d hd => h d (List.mem_cons_of_mem c hd))

theorem foldl_dominantStep_find :
    ∀ (l : List (String × ℚ)) (a : String × ℚ),
      a.2 < l.foldl (fun m e => max m e.2) a.2 →
      ∃ c, l.find? (fun d => decide (l.foldl (fun m e => max m e.2) a.2 ≤ d.2))
          = some c ∧
        l.foldl dominantStep a = c := by
  intro l
  induction l with
  | nil =>
    intro a h
    simp only [List.foldl_nil] at h
    exact absurd h (lt_irrefl a.2)
  | cons c t ih =>
    intro a h
    by_cases hac : a.2 < c.2
    · have hM : (c :: t).foldl (fun m e => max m e.2) a.2 =
          t.foldl (fun m e => max m e.2) c.2 := by
        simp only [List.foldl_cons, max_eq_right hac.le]
      rw [hM]
      have hstep : dominantStep a c = c := by
        unfold dominantStep
        rw [if_pos hac]
      by_cases hct : c.2 < t.foldl (fun m e => max m e.2) c.2
      · obtain ⟨d, hfind, hfold⟩ := ih c hct
        refine ⟨d, ?_, ?_⟩
        · rw [List.find?_cons_of_neg t (by simpa using not_le.mpr hct)]
          exact hfind
        · simp only [List.foldl_cons, hstep]
          exact hfold
      · have hle : t.foldl (fun m e => max m e.2) c.2 ≤ c.2 := not_lt.mp hct
        refine ⟨c, ?_, ?_⟩
        · exact List.find?_cons_of_pos t (by simpa using hle)
        · simp only [List.foldl_cons, hstep]
          exact foldl_dominantStep_of_le t c
            (fun d hd => le_trans (mem_le_foldl_max d t c.2 hd) hle)
    · have hca : c.2 ≤ a.2 := not_lt.mp hac
      have hM : (c :: t).foldl (fun m e => max m e.2) a.2 =
          t.foldl (fun m e => max m e.2) a.2 := by
        simp only [List.foldl_cons, max_eq_left hca]
      rw [hM] at h ⊢
      obtain ⟨d, hfind, hfold⟩ := ih a h
      refine ⟨d, ?_, ?_⟩
      · rw [List.find?_cons_of_neg t
          (by simpa using not_le.mpr (lt_of_le_of_lt hca h))]
        exact hfind
      · have hstep : dominantStep a c = a := by
          unfold dominantStep
          rw [if_neg hac]
        simp only [List.foldl_cons, hstep]
        exact hfold

theorem dominantOf_eq_specDominant (avgs : List (String × ℚ)) :
    dominantOf avgs = specDominant avgs := by
  unfold dominantOf specDominant
  by_cases h : avgs.foldl (fun m c => max m c.2) 0 ≤ 0
  · rw [if_pos h]
    have hall : ∀ c ∈ avgs, c.2 ≤ (("none", (0 : ℚ)) : String × ℚ).2 :=
      fun c hc => le_trans (mem_le_foldl_max c avgs 0 hc) h
    rw [foldl_dominantStep_of_le avgs _ hall]
  · rw [if_neg h]
    push_neg at h
    obtain ⟨d, hfind, hfold⟩ :=
      foldl_dominantStep_find avgs ("none", 0) (by simpa using h)
    dsimp only at hfind
    rw [hfold, hfind]

/-- Claim C9: the dominant species in the pollen block is the first
species (in the fixed ordering birch, grass, ragweed, alder, mugwort,
olive, with empty hourly series excluded) attaining the highest
per-species average, and `"none"` when no species has a strictly
positive average. -/
theorem dominant_pollen_spec :
    ∀ (w : Weather) (h : PollenHourly),
      ∃ pb : PollenBlock,
        (integratePollenData w h).pollen = some pb ∧
        pb.averages = pollenAveragesOf h ∧
        pb.dominant = specDominant (pollenAveragesOf h) :=
  fun w h => ⟨_, rfl, rfl, dominantOf_eq_specDominant (pollenAveragesOf h)⟩

/-! ## Claim C6 -/

/-- Claim C6: `applyFilters` retains exactly the plots that pass every
set filter (logical AND) — under a hive-capacity ceiling a plot passes
iff its leniently parsed numeric hive value (non-numeric parses as 0) is
at most the ceiling, under a land-type constraint iff its land-type
field is exactly equal to it, and absent filters impose no constraint —
preserving the input's relative order; in particular ceiling 10 over
plots with hive values 5, 15 and "abc" retains exactly the first and the
third. -/
theorem applyFilters_spec :
    (∀ (plots : List Plot) (f : Filters), (applyFilters plots f).Sublist plots) ∧
    (∀ (plots : List Plot) (s t : String) (m : ℤ),
       s ≠ "" → parseIntJS s = some m → t ≠ "" →
       applyFilters plots ⟨some s, some t⟩ =
         plots.filter (fun p => passesHive (some m) p && passesLand (some t) p)) ∧
    (∀ (plots : List Plot) (s : String) (m : ℤ), s ≠ "" → parseIntJS s = some m →
       applyFilters plots ⟨some s, none⟩ =
         plots.filter (fun p => passesHive (some m) p)) ∧
    (∀ (plots : List Plot) (t : String), t ≠ "" →
       applyFilters plots ⟨none, some t⟩ =
         plots.filter (fun p => passesLand (some t) p)) ∧
    (∀ plots : List Plot, applyFilters plots ⟨none, none⟩ = plots) ∧
    applyFilters [⟨"p1", "x", "5"⟩, ⟨"p2", "x", "15"⟩, ⟨"p3", "x", "abc"⟩]
        ⟨some "10", none⟩ =
      [⟨"p1", "x", "5"⟩, ⟨"p3", "x", "abc"⟩] := by
  have hne : ∀ s : String, s ≠ "" → s.isEmpty = false := by
    intro s hs
    cases hb : s.isEmpty
    · rfl
    · exact absurd ((String.isEmpty_iff s).mp hb) hs
  refine ⟨?_, ?_, ?_, ?_, ?_, ?_⟩
  · intro plots f
    simp only [applyFilters]
    rcases hh : strTruthy f.hiveCapacity with _ | _
    · rcases hl : strTruthy f.landType with _ | _
      · simp only [Bool.false_eq_true, if_false]
        exact List.Sublist.refl plots
      · simp only [if_true, Bool.false_eq_true, if_false]
        exact List.filter_sublist plots
    · rcases hl : strTruthy f.landType with _ | _
      · simp only [if_true, Bool.false_eq_true, if_false]
        cases parseIntJS (f.hiveCapacity.getD "") <;> exact List.filter_sublist plots
      · simp only [if_true]
        cases parseIntJS (f.hiveCapacity.getD "") <;>
          exact List.Sublist.trans (List.filter_sublist _) (List.filter_sublist plots)
  · intro plots s t m hs hm ht
    simp only [applyFilters, strTruthy, hne s hs, hne t ht, Option.getD_some, hm,
      Bool.not_false, if_true, List.filter_filter, passesHive, passesLand]
    exact List.filter_congr (fun a _ => Bool.and_comm _ _)
  · intro plots s m hs hm
    simp only [applyFilters, strTruthy, hne s hs, Option.getD_some, hm,
      Bool.not_false, if_true, Bool.false_eq_true, if_false, passesHive]
  · intro plots t ht
    simp only [applyFilters, strTruthy, hne t ht, Option.getD_some,
      Bool.not_false, if_true, Bool.false_eq_true, if_false, passesLand]
  · intro plots
    simp [applyFilters, strTruthy]
  · decide

/-- Witness for claim C6: the hive ceiling "10" parses to 10 and the
combined filter applies to a one-plot list. -/
theorem applyFilters_spec_witness :
    (("10" : String) ≠ "" ∧ parseIntJS "10" = some 10 ∧ ("g" : String) ≠ "") ∧
    applyFilters [⟨"p1", "g", "5"⟩] ⟨some "10", some "g"⟩ =
      (([⟨"p1", "g", "5"⟩] : List Plot).filter
        (fun p => passesHive (some 10) p && passesLand (some "g") p)) :=
  ⟨⟨by decide, by rfl, by decide⟩,
    applyFilters_spec.2.1 [⟨"p1", "g", "5"⟩] "10" "g" 10 (by decide) (by rfl)
      (by decide)⟩

end BeeLandr
